import Mathlib

/-!
Shallow embedding of the Digital_Twin interactive entity editor:
the building manager (`BuildingManager` component) and the route manager
(`RouteManager` component, in its local-storage and remote variants).

Numbers are modelled as rationals.  The trigonometric primitives used by the
rotated-rectangle geometry builder (`Math.cos`, `Math.sin`, `Math.PI`) are
abstracted into a `Trig` parameter, so every definition stays computable; the
claims that depend on rotation 0 only need the coefficients of `cos`/`sin`
to cancel, or the hypotheses `cos 0 = 1` and `sin 0 = 0`.
-/

namespace DigitalTwin

/-- Abstraction of the JS trigonometric primitives `Math.cos`, `Math.sin`
and the constant `Math.PI`. -/
structure Trig where
  cos : ℚ → ℚ
  sin : ℚ → ℚ
  pi : ℚ

/-- A building record as built by `handleAddBuilding`:
`{ id, location, coordinates, width, height, color, rotation, type }`. -/
structure Building where
  id : Nat
  location : ℚ × ℚ
  coordinates : List (List (ℚ × ℚ))
  width : ℚ
  height : ℚ
  color : String
  rotation : ℚ
  type : String
deriving DecidableEq

/-- `getRotatedCoordinates(center, size, rotation)`: the four corners of an
axis-aligned square of half-extent `size/2`, each rotated by
`rad = rotation * π / 180` and translated by `center`, wrapped as a single
polygon ring. -/
def getRotatedCoordinates (T : Trig) (center : ℚ × ℚ) (size : ℚ) (rotation : ℚ) :
    List (List (ℚ × ℚ)) :=
  let rad := rotation * T.pi / 180
  let pts : List (ℚ × ℚ) :=
    [(-size / 2, -size / 2), (size / 2, -size / 2),
     (size / 2, size / 2), (-size / 2, size / 2)]
  [pts.map (fun p =>
    (center.1 + p.1 * T.cos rad - p.2 * T.sin rad,
     center.2 + p.1 * T.sin rad + p.2 * T.cos rad))]

/-- The `buildingAqiLimits` table of `handleAddBuilding`; the source reads
`buildingAqiLimits[buildingType] || 200`, and since no listed ceiling is 0
this is the total function with default 200. -/
def buildingAqiLimits (t : String) : ℤ :=
  if t = "Residential Building" then 200
  else if t = "Market/Shopping Area" then 150
  else if t = "Office Building" then 100
  else if t = "Factory/Warehouse" then 300
  else if t = "Power Plant" then 400
  else if t = "Transport Hub" then 150
  else if t = "Educational Institution" then 100
  else if t = "Government Office" then 150
  else if t = "Park" then 50
  else if t = "Cinema/Entertainment" then 100
  else if t = "Gym/Sports Arena" then 100
  else if t = "Healthcare Facility" then 50
  else 200

/-- Outcome of the air-quality fetch in `handleAddBuilding`:
the HTTP response was not ok, the payload had no `data.aqi`, or it
carried an index. -/
inductive AqiResponse where
  | fetchFail : AqiResponse
  | noValue : AqiResponse
  | value : ℤ → AqiResponse
deriving DecidableEq

/-- How one invocation of `handleAddBuilding` ends: each abort branch raises
a distinct `alert` in the source, the last constructor is the successful add. -/
inductive AddOutcome where
  | missingInput : AddOutcome
  | fetchFailed : AddOutcome
  | invalidAqi : AddOutcome
  | aqiTooHigh : AddOutcome
  | added : AddOutcome
deriving DecidableEq

/-- The mutable world of the `BuildingManager` component: the form fields,
the in-memory catalog, the transient selection, and the `buildings`
key of localStorage (absent is identified with the empty list, as the
source reads it through `|| []`). -/
structure BuildingState where
  buildingWidth : ℚ
  buildingHeight : ℚ
  buildingColor : String
  buildingRotation : ℚ
  buildingType : String
  buildings : List Building
  selectedBuilding : Option Building
  storage : List Building
deriving DecidableEq

/-- `Math.max(...buildings.map(b => b.id))` for a catalog of naturals
(0 on the empty list; the source only calls it on non-empty catalogs). -/
def maxBuildingId (bs : List Building) : Nat :=
  bs.foldr (fun b m => max b.id m) 0

/-- `handleAddBuilding`: validates location and type, consults the
air-quality lookup against the per-type ceiling, and on success appends a
freshly built record (id `max+1`, or 1 on an empty catalog) to the catalog
and to storage, then resets the type field. -/
def handleAddBuilding (T : Trig) (clickedLocation : Option (ℚ × ℚ))
    (resp : AqiResponse) (s : BuildingState) : BuildingState × AddOutcome :=
  match clickedLocation with
  | none => (s, AddOutcome.missingInput)
  | some loc =>
    if s.buildingType = "" then (s, AddOutcome.missingInput)
    else
      match resp with
      | AqiResponse.fetchFail => (s, AddOutcome.fetchFailed)
      | AqiResponse.noValue => (s, AddOutcome.invalidAqi)
      | AqiResponse.value aqi =>
        if buildingAqiLimits s.buildingType < aqi then (s, AddOutcome.aqiTooHigh)
        else
          let size := s.buildingWidth / 111111
          let coords := getRotatedCoordinates T loc size s.buildingRotation
          let newId := if s.buildings.length > 0 then maxBuildingId s.buildings + 1 else 1
          let newBuilding : Building :=
            { id := newId, location := loc, coordinates := coords,
              width := s.buildingWidth, height := s.buildingHeight,
              color := s.buildingColor, rotation := s.buildingRotation,
              type := s.buildingType }
          let updated := s.buildings ++ [newBuilding]
          ({ s with buildings := updated, storage := updated, buildingType := "" },
           AddOutcome.added)

/-- `handleDeleteBuilding(buildingId)`: filters the record out of the catalog
and of storage and clears the selection (the map layers are render-only). -/
def handleDeleteBuilding (buildingId : Nat) (s : BuildingState) : BuildingState :=
  { s with
    buildings := s.buildings.filter (fun b => b.id ≠ buildingId),
    selectedBuilding := none,
    storage := s.storage.filter (fun b => b.id ≠ buildingId) }

/-- `handleUpdateBuilding`: no-op without a selection; otherwise rebuilds the
selected record with the current form fields, recomputing `coordinates` from
the selected building's location and the current width and rotation, and
replaces it by id in the catalog and in storage. -/
def handleUpdateBuilding (T : Trig) (s : BuildingState) : BuildingState :=
  match s.selectedBuilding with
  | none => s
  | some sel =>
    let size := s.buildingWidth / 111111
    let coords := getRotatedCoordinates T sel.location size s.buildingRotation
    let updatedBuilding : Building :=
      { sel with
        width := s.buildingWidth, height := s.buildingHeight,
        color := s.buildingColor, rotation := s.buildingRotation,
        type := s.buildingType, coordinates := coords }
    { s with
      buildings := s.buildings.map (fun b => if b.id = sel.id then updatedBuilding else b),
      storage := s.storage.map (fun b => if b.id = sel.id then updatedBuilding else b),
      selectedBuilding := none,
      buildingType := "" }

/-- `handleSelectBuilding(building)`: records the selection and copies the
record's attributes into the form fields (`rotation || 0` and `type || ''`
coincide with the stored fields in this total model). -/
def handleSelectBuilding (b : Building) (s : BuildingState) : BuildingState :=
  { s with
    selectedBuilding := some b, buildingWidth := b.width,
    buildingHeight := b.height, buildingColor := b.color,
    buildingRotation := b.rotation, buildingType := b.type }

/-- The label-anchor computation of `displayBuilding`: the arithmetic mean of
the vertices of `building.coordinates[0]`, via the same reduce-then-divide
shape as the source. -/
def centroid (ring : List (ℚ × ℚ)) : ℚ × ℚ :=
  let sum := ring.foldl (fun acc c => (acc.1 + c.1, acc.2 + c.2)) ((0 : ℚ), (0 : ℚ))
  (sum.1 / (ring.length : ℚ), sum.2 / (ring.length : ℚ))

/-- One user- or network-driven event of the `BuildingManager` component. -/
inductive BuildingEvent where
  | setWidth : ℚ → BuildingEvent
  | setHeight : ℚ → BuildingEvent
  | setColor : String → BuildingEvent
  | setRotationField : ℚ → BuildingEvent
  | setTypeField : String → BuildingEvent
  | selectBuilding : Building → BuildingEvent
  | addBuilding : Option (ℚ × ℚ) → AqiResponse → BuildingEvent
  | updateBuilding : BuildingEvent
  | deleteBuilding : Nat → BuildingEvent
deriving DecidableEq

/-- Event dispatch of the `BuildingManager` component. -/
def buildingStep (T : Trig) (s : BuildingState) (e : BuildingEvent) : BuildingState :=
  match e with
  | BuildingEvent.setWidth w => { s with buildingWidth := w }
  | BuildingEvent.setHeight h => { s with buildingHeight := h }
  | BuildingEvent.setColor c => { s with buildingColor := c }
  | BuildingEvent.setRotationField r => { s with buildingRotation := r }
  | BuildingEvent.setTypeField t => { s with buildingType := t }
  | BuildingEvent.selectBuilding b => handleSelectBuilding b s
  | BuildingEvent.addBuilding loc resp => (handleAddBuilding T loc resp s).1
  | BuildingEvent.updateBuilding => handleUpdateBuilding T s
  | BuildingEvent.deleteBuilding i => handleDeleteBuilding i s

/-- A whole interaction session of the `BuildingManager` component. -/
def buildingRun (T : Trig) (s : BuildingState) (es : List BuildingEvent) : BuildingState :=
  es.foldl (buildingStep T) s

/-- The Building invariant of the data model: `coordinates` is the geometry
builder applied to the record's own `(location, width / 111111, rotation)`. -/
def coordsInvariant (T : Trig) (b : Building) : Prop :=
  b.coordinates = getRotatedCoordinates T b.location (b.width / 111111) b.rotation

instance (T : Trig) (b : Building) : Decidable (coordsInvariant T b) := by
  unfold coordsInvariant
  infer_instance

/-- A route record as built by `handleSaveRoute`:
`{ id, name, type, coordinates, createdAt }`, coordinates serialized as
`"lng,lat"` strings. -/
structure Route where
  id : Nat
  name : String
  type : String
  coordinates : List String
  createdAt : String
deriving DecidableEq

/-- The `routes` key of localStorage: absent, present but not valid JSON,
or a parsed route list. -/
inductive StoredValue where
  | absent : StoredValue
  | corrupt : StoredValue
  | valid : List Route → StoredValue
deriving DecidableEq

/-- The mutable world of the `RouteManager` component: the catalog, the form
fields, the drawing-session buffer and flag, the surfaced error message, and
the `routes` key of localStorage. -/
structure RouteState where
  routes : List Route
  routeName : String
  routeType : String
  clickedPoints : List (ℚ × ℚ)
  isDrawing : Bool
  error : String
  storage : StoredValue
deriving DecidableEq

/-- `loadRoutes` (local-storage variant): a missing key or a JSON parse
failure silently yields the empty catalog, a parsed list repopulates it;
rendering side effects are not modelled. -/
def loadRoutes (s : RouteState) : RouteState :=
  match s.storage with
  | StoredValue.absent => { s with routes := [] }
  | StoredValue.corrupt => { s with routes := [] }
  | StoredValue.valid parsed => { s with routes := parsed }

/-- The serialization `` `${coord[0]},${coord[1]}` `` of one captured point. -/
def formatCoord (c : ℚ × ℚ) : String :=
  toString c.1 ++ "," ++ toString c.2

/-- The validation message of both `handleSaveRoute` variants. -/
def saveRouteErrorMsg : String :=
  "Please provide a route name and at least 2 points"

/-- `handleSaveRoute` (local-storage variant): rejects an empty name or a
buffer of fewer than 2 points by only setting the error message; otherwise
builds the new route (id `Date.now()`, passed in as `now`), appends it to the
catalog, writes the whole list to storage, and resets the session. -/
def handleSaveRoute (now : Nat) (createdAt : String) (s : RouteState) : RouteState :=
  if s.routeName = "" ∨ s.clickedPoints.length < 2 then
    { s with error := saveRouteErrorMsg }
  else
    let newRoute : Route :=
      { id := now, name := s.routeName, type := s.routeType,
        coordinates := s.clickedPoints.map formatCoord, createdAt := createdAt }
    let updatedRoutes := s.routes ++ [newRoute]
    { s with
      routes := updatedRoutes, storage := StoredValue.valid updatedRoutes,
      routeName := "", clickedPoints := [], isDrawing := false, error := "" }

/-- `handleSaveRoute` (remote variant): the same validation guard; on the
valid path the POST either fails (`none`: only the error message is set, the
session is untouched) or succeeds and the catalog is repopulated from the
server's route list by `loadRoutes`. -/
def handleSaveRouteRemote (serverRoutes : Option (List Route)) (s : RouteState) :
    RouteState :=
  if s.routeName = "" ∨ s.clickedPoints.length < 2 then
    { s with error := saveRouteErrorMsg }
  else
    match serverRoutes with
    | none => { s with error := "Failed to save route. Please try again." }
    | some rs =>
      { s with
        routeName := "", clickedPoints := [], isDrawing := false,
        error := "", routes := rs }

/-- The drawing-toggle button: `setIsDrawing(!isDrawing)`, and only when
entering drawing mode (`!isDrawing`) is the point buffer cleared. -/
def toggleDrawing (s : RouteState) : RouteState :=
  if s.isDrawing then { s with isDrawing := false }
  else { s with isDrawing := true, clickedPoints := [] }

/-- The map-click handler: ignored outside drawing mode, otherwise appends
the clicked point to the buffer. -/
def handleClick (p : ℚ × ℚ) (s : RouteState) : RouteState :=
  if s.isDrawing then { s with clickedPoints := s.clickedPoints ++ [p] } else s

/-- `handleDeleteRoute(id)` (local-storage variant): filters the route out
of the catalog and writes the filtered list to storage. -/
def handleDeleteRoute (i : Nat) (s : RouteState) : RouteState :=
  let updatedRoutes := s.routes.filter (fun r => r.id ≠ i)
  { s with routes := updatedRoutes, storage := StoredValue.valid updatedRoutes }

/-- One drawing session of the scenario kind: start drawing, capture the
given points in order, then press the toggle again (cancel). -/
def drawingSession (s : RouteState) (pts : List (ℚ × ℚ)) : RouteState :=
  toggleDrawing (pts.foldl (fun st p => handleClick p st) (toggleDrawing s))

/-- A concrete trig instantiation for witnesses (only `cos 0 = 1` and
`sin 0 = 0` matter to the rotation-0 claims). -/
def trigW : Trig :=
  { cos := fun _ => 1, sin := fun _ => 0, pi := 0 }

/-- The initial `RouteManager` state: the `useState` initial values, with an
absent storage key. -/
def routeState0 : RouteState :=
  { routes := [], routeName := "", routeType := "major", clickedPoints := [],
    isDrawing := false, error := "", storage := StoredValue.absent }

/-- The initial `BuildingManager` state: the `useState` initial values, with
empty storage. -/
def buildingState0 : BuildingState :=
  { buildingWidth := 30, buildingHeight := 50, buildingColor := "#ff0000",
    buildingRotation := 0, buildingType := "", buildings := [],
    selectedBuilding := none, storage := [] }

/-- A pre-existing catalog building with id 5, its ring derived from its own
parameters. -/
def buildingB5 : Building :=
  { id := 5, location := ((3 : ℚ), (4 : ℚ)),
    coordinates := getRotatedCoordinates trigW ((3 : ℚ), (4 : ℚ)) (20 / 111111) 0,
    width := 20, height := 10, color := "#00ff00", rotation := 0,
    type := "Park" }

/-- A building-manager state about to add a `"Park"` to a catalog whose
maximal id is 5. -/
def buildingStateParkMax5 : BuildingState :=
  { buildingState0 with
    buildingType := "Park", buildings := [buildingB5], storage := [buildingB5] }

/-- A mid-session state with the drawing flag on, an empty name and a
one-point buffer. -/
def routeStateInvalid : RouteState :=
  { routeState0 with
    isDrawing := true, clickedPoints := [((1 : ℚ), (2 : ℚ))] }

/-- A pre-existing catalog route with id 5. -/
def routeA : Route :=
  { id := 5, name := "Old", type := "major",
    coordinates := ["0,0", "1,1"], createdAt := "t0" }

/-- A drawing session ready to commit on a catalog that already holds
`routeA`. -/
def routeStateReady : RouteState :=
  { routeState0 with
    isDrawing := true, routeName := "Main St", routes := [routeA],
    clickedPoints := [((0 : ℚ), (0 : ℚ)), ((1 : ℚ), (1 : ℚ))],
    storage := StoredValue.valid [routeA] }

/-- C1: committing with an empty name or fewer than 2 captured points
mutates neither the catalog nor storage, keeps drawing mode active,
preserves the buffer, and surfaces the validation message — in both the
local-storage and the remote variant of `handleSaveRoute`. -/
theorem saveRoute_invalid_preserves_session (now : Nat) (createdAt : String)
    (serverRoutes : Option (List Route)) (s : RouteState)
    (hdraw : s.isDrawing = true)
    (hbad : s.routeName = "" ∨ s.clickedPoints.length < 2) :
    (handleSaveRoute now createdAt s).routes = s.routes ∧
    (handleSaveRoute now createdAt s).storage = s.storage ∧
    (handleSaveRoute now createdAt s).isDrawing = true ∧
    (handleSaveRoute now createdAt s).clickedPoints = s.clickedPoints ∧
    (handleSaveRoute now createdAt s).error = saveRouteErrorMsg ∧
    (handleSaveRouteRemote serverRoutes s).routes = s.routes ∧
    (handleSaveRouteRemote serverRoutes s).storage = s.storage ∧
    (handleSaveRouteRemote serverRoutes s).isDrawing = true ∧
    (handleSaveRouteRemote serverRoutes s).clickedPoints = s.clickedPoints ∧
    (handleSaveRouteRemote serverRoutes s).error = saveRouteErrorMsg := by
  have h1 : handleSaveRoute now createdAt s = { s with error := saveRouteErrorMsg } := by
    unfold handleSaveRoute
    rw [if_pos hbad]
  have h2 : handleSaveRouteRemote serverRoutes s = { s with error := saveRouteErrorMsg } := by
    unfold handleSaveRouteRemote
    rw [if_pos hbad]
  rw [h1, h2]
  exact ⟨rfl, rfl, hdraw, rfl, rfl, rfl, rfl, hdraw, rfl, rfl⟩

/-- Witness for C1 at a concrete invalid session (empty name, 1 point). -/
theorem saveRoute_invalid_preserves_session_witness :
    (handleSaveRoute 7 "t" routeStateInvalid).routes = routeStateInvalid.routes ∧
    (handleSaveRoute 7 "t" routeStateInvalid).storage = routeStateInvalid.storage ∧
    (handleSaveRoute 7 "t" routeStateInvalid).isDrawing = true ∧
    (handleSaveRoute 7 "t" routeStateInvalid).clickedPoints = routeStateInvalid.clickedPoints ∧
    (handleSaveRoute 7 "t" routeStateInvalid).error = saveRouteErrorMsg ∧
    (handleSaveRouteRemote none routeStateInvalid).routes = routeStateInvalid.routes ∧
    (handleSaveRouteRemote none routeStateInvalid).storage = routeStateInvalid.storage ∧
    (handleSaveRouteRemote none routeStateInvalid).isDrawing = true ∧
    (handleSaveRouteRemote none routeStateInvalid).clickedPoints = routeStateInvalid.clickedPoints ∧
    (handleSaveRouteRemote none routeStateInvalid).error = saveRouteErrorMsg :=
  saveRoute_invalid_preserves_session 7 "t" none routeStateInvalid rfl (Or.inl rfl)

/-- C10: `loadRoutes` is a total function of the stored value, and an
absent or unparseable store silently yields the empty catalog. -/
theorem loadRoutes_absent_or_corrupt_yields_empty (s : RouteState) :
    (loadRoutes { s with storage := StoredValue.absent }).routes = [] ∧
    (loadRoutes { s with storage := StoredValue.corrupt }).routes = [] ∧
    ∀ parsed, (loadRoutes { s with storage := StoredValue.valid parsed }).routes = parsed :=
  ⟨rfl, rfl, fun _ => rfl⟩

/-- C5: committing a valid session (name non-empty, ≥ 2 points) appends
exactly one catalog entry whose serialized coordinates have the same length
and order as the buffer, the i-th being the string `"lng,lat"` of the i-th
captured point. -/
theorem saveRoute_valid_appends_serialized (now : Nat) (createdAt : String)
    (s : RouteState) (hname : s.routeName ≠ "")
    (hlen : 2 ≤ s.clickedPoints.length) :
    ∃ r : Route,
      (handleSaveRoute now createdAt s).routes = s.routes ++ [r] ∧
      r.coordinates.length = s.clickedPoints.length ∧
      ∀ i : Nat, ∀ p : ℚ × ℚ, s.clickedPoints[i]? = some p →
        r.coordinates[i]? = some (toString p.1 ++ "," ++ toString p.2) := by
  have hcond : ¬ (s.routeName = "" ∨ s.clickedPoints.length < 2) := by
    push_neg
    exact ⟨hname, by omega⟩
  refine ⟨{ id := now, name := s.routeName, type := s.routeType,
            coordinates := s.clickedPoints.map formatCoord,
            createdAt := createdAt }, ?_, ?_, ?_⟩
  · unfold handleSaveRoute
    rw [if_neg hcond]
  · exact List.length_map _ _
  · intro i p hp
    simp [List.getElem?_map, hp, formatCoord]

/-- Witness for C5 at a concrete two-point session. -/
theorem saveRoute_valid_appends_serialized_witness :
    ∃ r : Route,
      (handleSaveRoute 9 "t2" routeStateReady).routes = routeStateReady.routes ++ [r] ∧
      r.coordinates.length = routeStateReady.clickedPoints.length ∧
      ∀ i : Nat, ∀ p : ℚ × ℚ, routeStateReady.clickedPoints[i]? = some p →
        r.coordinates[i]? = some (toString p.1 ++ "," ++ toString p.2) :=
  saveRoute_valid_appends_serialized 9 "t2" routeStateReady (by decide) (by decide)

/-- Counterexample to C4 as stated: on a catalog whose single route has id 5
the claim predicts the committed route gets id `5 + 1 = 6`, but
`handleSaveRoute` assigns the `Date.now()` timestamp (here 7777), not
`max(ids)+1`. -/
theorem saveRoute_id_is_timestamp_cex :
    (handleSaveRoute 7777 "t1" routeStateReady).routes.getLast?.map Route.id
      = some 7777 ∧
    routeA.id + 1 = 6 ∧ (7777 : Nat) ≠ 6 := by
  refine ⟨?_, rfl, by decide⟩
  rfl

/-- C4 amended: the building catalog assigns the committed building the id
`max(existing ids)+1`, or 1 on an empty catalog; the route catalog instead
assigns the commit timestamp `Date.now()` as id. -/
theorem local_id_assignment (T : Trig) (loc : ℚ × ℚ) (aqi : ℤ)
    (s : BuildingState) (htype : s.buildingType ≠ "")
    (haqi : aqi ≤ buildingAqiLimits s.buildingType)
    (now : Nat) (createdAt : String) (r : RouteState)
    (hname : r.routeName ≠ "") (hlen : 2 ≤ r.clickedPoints.length) :
    ((handleAddBuilding T (some loc) (AqiResponse.value aqi) s).1.buildings.getLast?.map
        Building.id
      = some (if 0 < s.buildings.length then maxBuildingId s.buildings + 1 else 1)) ∧
    (handleSaveRoute now createdAt r).routes.getLast?.map Route.id = some now := by
  constructor
  · simp only [handleAddBuilding]
    rw [if_neg htype, if_neg (not_lt.mpr haqi)]
    simp [List.getLast?_concat]
  · have hcond : ¬ (r.routeName = "" ∨ r.clickedPoints.length < 2) := by
      push_neg
      exact ⟨hname, by omega⟩
    unfold handleSaveRoute
    rw [if_neg hcond]
    simp [List.getLast?_concat]

/-- Witness for the amended C4: a building added on a catalog with max id 5
gets id 6; a route committed at timestamp 7777 gets id 7777. -/
theorem local_id_assignment_witness :
    ((handleAddBuilding trigW (some ((1 : ℚ), (2 : ℚ))) (AqiResponse.value 40)
        buildingStateParkMax5).1.buildings.getLast?.map Building.id
      = some (if 0 < buildingStateParkMax5.buildings.length then
                maxBuildingId buildingStateParkMax5.buildings + 1 else 1)) ∧
    (handleSaveRoute 7777 "t1" routeStateReady).routes.getLast?.map Route.id = some 7777 :=
  local_id_assignment trigW ((1 : ℚ), (2 : ℚ)) 40 buildingStateParkMax5 (by decide)
    (by decide) 7777 "t1" routeStateReady (by decide) (by decide)

/-- C3: with a location and a type selected, `handleAddBuilding` aborts with
a distinct reported reason and no state change when the air-quality fetch
fails, returns no index, or returns an index strictly above the per-type
ceiling (50 for `"Park"`); an index at or below the ceiling makes the add
succeed, appending exactly one catalog entry.  `handleUpdateBuilding` and
`handleDeleteBuilding` take no air-quality input at all and always proceed. -/
theorem addBuilding_aqi_gating (T : Trig) (loc : ℚ × ℚ) (aqi : ℤ)
    (s : BuildingState) (htype : s.buildingType ≠ "") :
    handleAddBuilding T (some loc) AqiResponse.fetchFail s
      = (s, AddOutcome.fetchFailed) ∧
    handleAddBuilding T (some loc) AqiResponse.noValue s
      = (s, AddOutcome.invalidAqi) ∧
    (buildingAqiLimits s.buildingType < aqi →
      handleAddBuilding T (some loc) (AqiResponse.value aqi) s
        = (s, AddOutcome.aqiTooHigh)) ∧
    (aqi ≤ buildingAqiLimits s.buildingType →
      (handleAddBuilding T (some loc) (AqiResponse.value aqi) s).2 = AddOutcome.added ∧
      ∃ b, (handleAddBuilding T (some loc) (AqiResponse.value aqi) s).1.buildings
             = s.buildings ++ [b]) ∧
    buildingAqiLimits "Park" = 50 ∧
    (∀ s2 : BuildingState, ∀ sel : Building, s2.selectedBuilding = some sel →
      (handleUpdateBuilding T s2).buildings.length = s2.buildings.length) ∧
    ∀ s3 : BuildingState, ∀ i : Nat,
      (handleDeleteBuilding i s3).buildings = s3.buildings.filter (fun b => b.id ≠ i) := by
  refine ⟨?_, ?_, ?_, ?_, by decide, ?_, ?_⟩
  · simp only [handleAddBuilding]
    rw [if_neg htype]
  · simp only [handleAddBuilding]
    rw [if_neg htype]
  · intro hgt
    simp only [handleAddBuilding]
    rw [if_neg htype, if_pos hgt]
  · intro hle
    simp only [handleAddBuilding]
    rw [if_neg htype, if_neg (not_lt.mpr hle)]
    exact ⟨rfl, ⟨_, rfl⟩⟩
  · intro s2 sel hsel
    simp [handleUpdateBuilding, hsel]
  · intro s3 i
    rfl

/-- Witness for C3 on a concrete `"Park"` add with index 40 below the
ceiling 50. -/
theorem addBuilding_aqi_gating_witness :
    handleAddBuilding trigW (some ((1 : ℚ), (2 : ℚ))) AqiResponse.fetchFail
        buildingStateParkMax5
      = (buildingStateParkMax5, AddOutcome.fetchFailed) ∧
    handleAddBuilding trigW (some ((1 : ℚ), (2 : ℚ))) AqiResponse.noValue
        buildingStateParkMax5
      = (buildingStateParkMax5, AddOutcome.invalidAqi) ∧
    (buildingAqiLimits buildingStateParkMax5.buildingType < 40 →
      handleAddBuilding trigW (some ((1 : ℚ), (2 : ℚ))) (AqiResponse.value 40)
          buildingStateParkMax5
        = (buildingStateParkMax5, AddOutcome.aqiTooHigh)) ∧
    ((40 : ℤ) ≤ buildingAqiLimits buildingStateParkMax5.buildingType →
      (handleAddBuilding trigW (some ((1 : ℚ), (2 : ℚ))) (AqiResponse.value 40)
          buildingStateParkMax5).2 = AddOutcome.added ∧
      ∃ b, (handleAddBuilding trigW (some ((1 : ℚ), (2 : ℚ))) (AqiResponse.value 40)
              buildingStateParkMax5).1.buildings
             = buildingStateParkMax5.buildings ++ [b]) ∧
    buildingAqiLimits "Park" = 50 ∧
    (∀ s2 : BuildingState, ∀ sel : Building, s2.selectedBuilding = some sel →
      (handleUpdateBuilding trigW s2).buildings.length = s2.buildings.length) ∧
    ∀ s3 : BuildingState, ∀ i : Nat,
      (handleDeleteBuilding i s3).buildings = s3.buildings.filter (fun b => b.id ≠ i) :=
  addBuilding_aqi_gating trigW ((1 : ℚ), (2 : ℚ)) 40 buildingStateParkMax5 (by decide)

/-- A state with `buildingB5` selected and fresh form values, ready for an
update. -/
def buildingStateSelected : BuildingState :=
  { buildingStateParkMax5 with
    selectedBuilding := some buildingB5, buildingWidth := 40,
    buildingHeight := 20, buildingColor := "#0000ff", buildingRotation := 90,
    buildingType := "Office Building" }

/-- C9: with a selection, `handleUpdateBuilding` keeps the catalog length,
leaves every entry with a different id untouched, and overwrites the entry
with the selected id by a record that keeps the selected building's id and
anchor location while taking width, height, color, rotation and type from
the form and recomputing `coordinates` from them. -/
theorem updateBuilding_frame (T : Trig) (s : BuildingState) (sel : Building)
    (hsel : s.selectedBuilding = some sel) :
    (handleUpdateBuilding T s).buildings.length = s.buildings.length ∧
    (∀ i : Nat, ∀ b : Building, s.buildings[i]? = some b → b.id ≠ sel.id →
      (handleUpdateBuilding T s).buildings[i]? = some b) ∧
    (∀ i : Nat, ∀ b : Building, s.buildings[i]? = some b → b.id = sel.id →
      (handleUpdateBuilding T s).buildings[i]? = some
        { sel with
          width := s.buildingWidth, height := s.buildingHeight,
          color := s.buildingColor, rotation := s.buildingRotation,
          type := s.buildingType,
          coordinates := getRotatedCoordinates T sel.location
            (s.buildingWidth / 111111) s.buildingRotation }) ∧
    ({ sel with
       width := s.buildingWidth, height := s.buildingHeight,
       color := s.buildingColor, rotation := s.buildingRotation,
       type := s.buildingType,
       coordinates := getRotatedCoordinates T sel.location
         (s.buildingWidth / 111111) s.buildingRotation } : Building).id = sel.id ∧
    ({ sel with
       width := s.buildingWidth, height := s.buildingHeight,
       color := s.buildingColor, rotation := s.buildingRotation,
       type := s.buildingType,
       coordinates := getRotatedCoordinates T sel.location
         (s.buildingWidth / 111111) s.buildingRotation } : Building).location
      = sel.location := by
  refine ⟨?_, ?_, ?_, rfl, rfl⟩
  · simp [handleUpdateBuilding, hsel]
  · intro i b hb hne
    simp only [handleUpdateBuilding, hsel]
    simp [List.getElem?_map, hb, hne]
  · intro i b hb heq
    simp only [handleUpdateBuilding, hsel]
    simp [List.getElem?_map, hb, heq]

/-- Witness for C9 on a concrete selected building. -/
theorem updateBuilding_frame_witness :
    (handleUpdateBuilding trigW buildingStateSelected).buildings.length
      = buildingStateSelected.buildings.length ∧
    (∀ i : Nat, ∀ b : Building, buildingStateSelected.buildings[i]? = some b →
      b.id ≠ buildingB5.id →
      (handleUpdateBuilding trigW buildingStateSelected).buildings[i]? = some b) ∧
    (∀ i : Nat, ∀ b : Building, buildingStateSelected.buildings[i]? = some b →
      b.id = buildingB5.id →
      (handleUpdateBuilding trigW buildingStateSelected).buildings[i]? = some
        { buildingB5 with
          width := buildingStateSelected.buildingWidth,
          height := buildingStateSelected.buildingHeight,
          color := buildingStateSelected.buildingColor,
          rotation := buildingStateSelected.buildingRotation,
          type := buildingStateSelected.buildingType,
          coordinates := getRotatedCoordinates trigW buildingB5.location
            (buildingStateSelected.buildingWidth / 111111)
            buildingStateSelected.buildingRotation }) ∧
    ({ buildingB5 with
       width := buildingStateSelected.buildingWidth,
       height := buildingStateSelected.buildingHeight,
       color := buildingStateSelected.buildingColor,
       rotation := buildingStateSelected.buildingRotation,
       type := buildingStateSelected.buildingType,
       coordinates := getRotatedCoordinates trigW buildingB5.location
         (buildingStateSelected.buildingWidth / 111111)
         buildingStateSelected.buildingRotation } : Building).id = buildingB5.id ∧
    ({ buildingB5 with
       width := buildingStateSelected.buildingWidth,
       height := buildingStateSelected.buildingHeight,
       color := buildingStateSelected.buildingColor,
       rotation := buildingStateSelected.buildingRotation,
       type := buildingStateSelected.buildingType,
       coordinates := getRotatedCoordinates trigW buildingB5.location
         (buildingStateSelected.buildingWidth / 111111)
         buildingStateSelected.buildingRotation } : Building).location
      = buildingB5.location :=
  updateBuilding_frame trigW buildingStateSelected buildingB5 rfl

/-- One event of the `BuildingManager` preserves the invariant that every
catalog record's `coordinates` equals the geometry builder applied to its
own `(location, width / 111111, rotation)`. -/
theorem coordsInvariant_step (T : Trig) (s : BuildingState) (e : BuildingEvent)
    (h : ∀ b ∈ s.buildings, coordsInvariant T b) :
    ∀ b ∈ (buildingStep T s e).buildings, coordsInvariant T b := by
  cases e with
  | setWidth w => exact h
  | setHeight v => exact h
  | setColor v => exact h
  | setRotationField v => exact h
  | setTypeField v => exact h
  | selectBuilding b => exact h
  | deleteBuilding i =>
    intro b hb
    exact h b (List.mem_of_mem_filter hb)
  | updateBuilding =>
    cases hsel : s.selectedBuilding with
    | none =>
      simp only [buildingStep, handleUpdateBuilding, hsel]
      exact h
    | some sel =>
      simp only [buildingStep, handleUpdateBuilding, hsel]
      intro b hb
      rw [List.mem_map] at hb
      obtain ⟨a, ha, rfl⟩ := hb
      by_cases hid : a.id = sel.id
      · rw [if_pos hid]
        unfold coordsInvariant
        rfl
      · rw [if_neg hid]
        exact h a ha
  | addBuilding loc resp =>
    cases loc with
    | none => exact h
    | some l =>
      by_cases htype : s.buildingType = ""
      · have heq : buildingStep T s (BuildingEvent.addBuilding (some l) resp) = s := by
          simp only [buildingStep, handleAddBuilding]
          rw [if_pos htype]
        rw [heq]
        exact h
      · cases resp with
        | fetchFail =>
          have heq : buildingStep T s
              (BuildingEvent.addBuilding (some l) AqiResponse.fetchFail) = s := by
            simp only [buildingStep, handleAddBuilding]
            rw [if_neg htype]
          rw [heq]
          exact h
        | noValue =>
          have heq : buildingStep T s
              (BuildingEvent.addBuilding (some l) AqiResponse.noValue) = s := by
            simp only [buildingStep, handleAddBuilding]
            rw [if_neg htype]
          rw [heq]
          exact h
        | value aqi =>
          by_cases hlt : buildingAqiLimits s.buildingType < aqi
          · have heq : buildingStep T s
                (BuildingEvent.addBuilding (some l) (AqiResponse.value aqi)) = s := by
              simp only [buildingStep, handleAddBuilding]
              rw [if_neg htype, if_pos hlt]
            rw [heq]
            exact h
          · simp only [buildingStep, handleAddBuilding]
            rw [if_neg htype, if_neg hlt]
            intro b hb
            rw [List.mem_append] at hb
            rcases hb with hb | hb
            · exact h b hb
            · rw [List.mem_singleton] at hb
              subst hb
              unfold coordsInvariant
              rfl

/-- C2: after any event sequence of the `BuildingManager` (field edits,
selections, adds, updates, deletes) starting from a catalog that satisfies
it, every catalog record's `coordinates` equals
`getRotatedCoordinates(location, width / 111111, rotation)` of that same
record — `coordinates` never drifts from the declared parameters. -/
theorem buildings_coords_track_parameters (T : Trig) (es : List BuildingEvent)
    (s : BuildingState) (h : ∀ b ∈ s.buildings, coordsInvariant T b) :
    ∀ b ∈ (buildingRun T s es).buildings, coordsInvariant T b := by
  induction es generalizing s with
  | nil => exact h
  | cons e es ih => exact ih (buildingStep T s e) (coordsInvariant_step T s e h)

/-- A concrete event sequence: choose a type, add a building, edit the
width, select the stored building, update it. -/
def eventsW : List BuildingEvent :=
  [BuildingEvent.setTypeField "Park",
   BuildingEvent.addBuilding (some ((1 : ℚ), (2 : ℚ))) (AqiResponse.value 40),
   BuildingEvent.setWidth 60,
   BuildingEvent.selectBuilding buildingB5,
   BuildingEvent.updateBuilding]

/-- The building committed by the add event of `eventsW`. -/
def buildingAdded1 : Building :=
  { id := 1, location := ((1 : ℚ), (2 : ℚ)),
    coordinates := getRotatedCoordinates trigW ((1 : ℚ), (2 : ℚ)) (30 / 111111) 0,
    width := 30, height := 50, color := "#ff0000", rotation := 0, type := "Park" }

/-- Witness for C2: the record committed by the concrete session `eventsW`
satisfies the coordinates invariant. -/
theorem buildings_coords_track_parameters_witness :
    coordsInvariant trigW buildingAdded1 :=
  buildings_coords_track_parameters trigW eventsW buildingState0
    (by intro b hb; simp [buildingState0] at hb) buildingAdded1
    (by exact List.Mem.head _)

/-- C6: with `cos 0 = 1` and `sin 0 = 0`, the geometry builder at rotation 0
returns a single ring of exactly 4 corners, in the fixed order bottom-left,
bottom-right, top-right, top-left of the axis-aligned square of side
`width / 111111` centered on the anchor, with no closing duplicate of the
first corner. -/
theorem rotatedRect_rotation_zero (T : Trig) (c : ℚ × ℚ) (w : ℚ)
    (hcos : T.cos 0 = 1) (hsin : T.sin 0 = 0) (hw : 0 < w) :
    getRotatedCoordinates T c (w / 111111) 0 =
      [[(c.1 - w / 111111 / 2, c.2 - w / 111111 / 2),
        (c.1 + w / 111111 / 2, c.2 - w / 111111 / 2),
        (c.1 + w / 111111 / 2, c.2 + w / 111111 / 2),
        (c.1 - w / 111111 / 2, c.2 + w / 111111 / 2)]] ∧
    (getRotatedCoordinates T c (w / 111111) 0).headI.length = 4 ∧
    (getRotatedCoordinates T c (w / 111111) 0).headI.getLast? ≠
      (getRotatedCoordinates T c (w / 111111) 0).headI.head? := by
  have hrad : (0 : ℚ) * T.pi / 180 = 0 := by ring
  have hmain : getRotatedCoordinates T c (w / 111111) 0 =
      [[(c.1 - w / 111111 / 2, c.2 - w / 111111 / 2),
        (c.1 + w / 111111 / 2, c.2 - w / 111111 / 2),
        (c.1 + w / 111111 / 2, c.2 + w / 111111 / 2),
        (c.1 - w / 111111 / 2, c.2 + w / 111111 / 2)]] := by
    simp only [getRotatedCoordinates, List.map, hrad, hcos, hsin,
      List.cons.injEq, Prod.mk.injEq, and_true]
    refine ⟨⟨by ring, by ring⟩, ⟨by ring, by ring⟩, ⟨by ring, by ring⟩, by ring, by ring⟩
  refine ⟨hmain, ?_, ?_⟩
  · rw [hmain]
    rfl
  · rw [hmain]
    show some (c.1 - w / 111111 / 2, c.2 + w / 111111 / 2) ≠
      some (c.1 - w / 111111 / 2, c.2 - w / 111111 / 2)
    simp only [ne_eq, Option.some.injEq, Prod.mk.injEq, not_and]
    intro _ hy
    have hpos : w / 111111 > 0 := by positivity
    linarith

/-- Witness for C6 at the concrete anchor `(1, 2)` and width 30. -/
theorem rotatedRect_rotation_zero_witness :
    getRotatedCoordinates trigW ((1 : ℚ), (2 : ℚ)) (30 / 111111) 0 =
      [[((1 : ℚ) - 30 / 111111 / 2, (2 : ℚ) - 30 / 111111 / 2),
        ((1 : ℚ) + 30 / 111111 / 2, (2 : ℚ) - 30 / 111111 / 2),
        ((1 : ℚ) + 30 / 111111 / 2, (2 : ℚ) + 30 / 111111 / 2),
        ((1 : ℚ) - 30 / 111111 / 2, (2 : ℚ) + 30 / 111111 / 2)]] ∧
    (getRotatedCoordinates trigW ((1 : ℚ), (2 : ℚ)) (30 / 111111) 0).headI.length = 4 ∧
    (getRotatedCoordinates trigW ((1 : ℚ), (2 : ℚ)) (30 / 111111) 0).headI.getLast? ≠
      (getRotatedCoordinates trigW ((1 : ℚ), (2 : ℚ)) (30 / 111111) 0).headI.head? :=
  rotatedRect_rotation_zero trigW ((1 : ℚ), (2 : ℚ)) 30 rfl rfl (by decide)

/-- C8: for a building whose ring was produced at rotation 0, the label
anchor of `displayBuilding` — the arithmetic mean of the ring's 4 vertex
coordinates — equals the building's anchor location exactly. -/
theorem building_label_centroid_eq_anchor (T : Trig) (b : Building)
    (hrot : b.rotation = 0)
    (hcoords : b.coordinates =
      getRotatedCoordinates T b.location (b.width / 111111) b.rotation) :
    centroid b.coordinates.headI = b.location := by
  rw [hcoords, hrot]
  unfold getRotatedCoordinates centroid
  simp only [List.headI, List.map, List.foldl, List.length]
  rw [Prod.ext_iff]
  constructor
  · push_cast
    ring
  · push_cast
    ring

/-- Witness for C8 on the concrete rotation-0 building `buildingB5`. -/
theorem building_label_centroid_eq_anchor_witness :
    centroid buildingB5.coordinates.headI = buildingB5.location :=
  building_label_centroid_eq_anchor trigW buildingB5 rfl rfl

/-- Counterexample to C7 as stated: after start drawing, three clicks and
cancel, the mode is back to Idle and the catalog is unchanged, but the point
buffer still holds the three points — the cancel toggle does not clear
`clickedPoints`. -/
theorem cancel_does_not_discard_buffer_cex :
    (drawingSession routeState0
        [((1 : ℚ), (1 : ℚ)), ((2 : ℚ), (2 : ℚ)), ((3 : ℚ), (3 : ℚ))]).isDrawing
      = false ∧
    (drawingSession routeState0
        [((1 : ℚ), (1 : ℚ)), ((2 : ℚ), (2 : ℚ)), ((3 : ℚ), (3 : ℚ))]).routes
      = routeState0.routes ∧
    (drawingSession routeState0
        [((1 : ℚ), (1 : ℚ)), ((2 : ℚ), (2 : ℚ)), ((3 : ℚ), (3 : ℚ))]).clickedPoints
      = [((1 : ℚ), (1 : ℚ)), ((2 : ℚ), (2 : ℚ)), ((3 : ℚ), (3 : ℚ))] ∧
    (drawingSession routeState0
        [((1 : ℚ), (1 : ℚ)), ((2 : ℚ), (2 : ℚ)), ((3 : ℚ), (3 : ℚ))]).clickedPoints
      ≠ [] := by
  decide

/-- Capturing points while the drawing flag is on appends them, in order,
to the buffer and changes nothing else. -/
theorem clicks_while_drawing (pts : List (ℚ × ℚ)) (st : RouteState)
    (hdraw : st.isDrawing = true) :
    pts.foldl (fun acc p => handleClick p acc) st =
      { st with clickedPoints := st.clickedPoints ++ pts } := by
  induction pts generalizing st with
  | nil => simp
  | cons p ps ih =>
    have hstep : handleClick p st = { st with clickedPoints := st.clickedPoints ++ [p] } := by
      unfold handleClick
      rw [if_pos hdraw]
    rw [List.foldl_cons, hstep,
      ih { st with clickedPoints := st.clickedPoints ++ [p] } hdraw,
      List.append_assoc]
    rfl

/-- C7 amended: start, capture, cancel returns the mode to Idle, leaves the
catalog and storage unchanged, the retained buffer is inert (clicks while
Idle are ignored), and it is discarded at the next start of a drawing
session rather than at cancel. -/
theorem cancel_returns_idle_buffer_deferred (s : RouteState) (pts : List (ℚ × ℚ))
    (q : ℚ × ℚ) (hidle : s.isDrawing = false) :
    (drawingSession s pts).isDrawing = false ∧
    (drawingSession s pts).routes = s.routes ∧
    (drawingSession s pts).storage = s.storage ∧
    (drawingSession s pts).clickedPoints = pts ∧
    handleClick q (drawingSession s pts) = drawingSession s pts ∧
    (toggleDrawing (drawingSession s pts)).clickedPoints = [] := by
  have hstart : toggleDrawing s = { s with isDrawing := true, clickedPoints := [] } := by
    unfold toggleDrawing
    rw [if_neg (by simp [hidle])]
  have hsession : drawingSession s pts = { s with isDrawing := false, clickedPoints := pts } := by
    unfold drawingSession
    rw [hstart, clicks_while_drawing pts _ rfl]
    unfold toggleDrawing
    rw [if_pos rfl]
    simp
  rw [hsession]
  refine ⟨rfl, rfl, rfl, rfl, ?_, ?_⟩
  · unfold handleClick
    rw [if_neg (by simp)]
  · unfold toggleDrawing
    rw [if_neg (by simp)]

/-- Witness for the amended C7 at a concrete three-point session. -/
theorem cancel_returns_idle_buffer_deferred_witness :
    (drawingSession routeState0 [((1 : ℚ), (1 : ℚ)), ((2 : ℚ), (2 : ℚ))]).isDrawing = false ∧
    (drawingSession routeState0 [((1 : ℚ), (1 : ℚ)), ((2 : ℚ), (2 : ℚ))]).routes
      = routeState0.routes ∧
    (drawingSession routeState0 [((1 : ℚ), (1 : ℚ)), ((2 : ℚ), (2 : ℚ))]).storage
      = routeState0.storage ∧
    (drawingSession routeState0 [((1 : ℚ), (1 : ℚ)), ((2 : ℚ), (2 : ℚ))]).clickedPoints
      = [((1 : ℚ), (1 : ℚ)), ((2 : ℚ), (2 : ℚ))] ∧
    handleClick ((9 : ℚ), (9 : ℚ))
        (drawingSession routeState0 [((1 : ℚ), (1 : ℚ)), ((2 : ℚ), (2 : ℚ))])
      = drawingSession routeState0 [((1 : ℚ), (1 : ℚ)), ((2 : ℚ), (2 : ℚ))] ∧
    (toggleDrawing (drawingSession routeState0
        [((1 : ℚ), (1 : ℚ)), ((2 : ℚ), (2 : ℚ))])).clickedPoints = [] :=
  cancel_returns_idle_buffer_deferred routeState0
    [((1 : ℚ), (1 : ℚ)), ((2 : ℚ), (2 : ℚ))] ((9 : ℚ), (9 : ℚ)) rfl

end DigitalTwin
